import Mathlib

/-!
A shallow embedding of the session-lifecycle / capture-loop / storage core of
the context-tracker backend (`src/storage.py`, `src/session.py`,
`src/context_tracker.py`).

Python exceptions are modelled with `Except`, the SQLite tables with lists of
row structures kept in rowid (insertion) order, timestamps with `Nat`, and the
external collaborators (screen capture, vision analysis, text generation, the
database engine's fault behaviour) with explicit per-call outcome values.
-/

/- # Storage engine: retry machinery (`storage.py`) -/

/-- Outcome of one attempt of a database operation as seen by
`ContextStorage._execute_with_retry` (storage.py lines 72-86): the attempt
can succeed, raise `sqlite3.OperationalError` with a "database is locked"
message, or raise any other error. -/
inductive DbOutcome where
  | ok (v : Nat)
  | locked
  | otherErr
deriving DecidableEq

/-- Kind of error propagated out of a storage write. -/
inductive DbErr where
  | locked
  | other
deriving DecidableEq

/-- Result of pushing a write through the storage layer: a returned value or a
raised error; the list records the back-off sleeps performed, in tenths of a
second (line 81: `time.sleep(0.1 * (attempt + 1))`). -/
inductive RetryOutcome where
  | ok (v : Nat) (sleeps : List Nat)
  | raised (e : DbErr) (sleeps : List Nat)
deriving DecidableEq

/-- Inner recursion of `_execute_with_retry`: `attempt` is the 0-based index
of the current attempt and `remaining = max_retries - attempt`.  A locked
error retries (after sleeping `0.1 * (attempt + 1)` seconds) only while
`attempt < max_retries - 1` (line 79); a locked error on the last attempt and
every other error re-raise immediately (lines 83, 86).  The `remaining = 0`
case is unreachable for positive `max_retries`. -/
def executeWithRetryGo (f : Nat → DbOutcome) (attempt remaining : Nat)
    (sleeps : List Nat) : RetryOutcome :=
  match remaining with
  | 0 => .raised .other sleeps
  | r + 1 =>
    match f attempt with
    | .ok v => .ok v sleeps
    | .otherErr => .raised .other sleeps
    | .locked =>
      if r = 0 then .raised .locked sleeps
      else executeWithRetryGo f (attempt + 1) r (sleeps ++ [attempt + 1])

/-- `ContextStorage._execute_with_retry` (storage.py lines 72-86) with its
default `max_retries=3`; `f` gives the outcome of each attempt. -/
def execute_with_retry (f : Nat → DbOutcome) (max_retries : Nat := 3) :
    RetryOutcome :=
  executeWithRetryGo f 0 max_retries []

/-- The write operations exposed by `ContextStorage`. -/
inductive WriteOp where
  | save_event
  | create_context
  | save_context
  | create_session
  | end_session_updating_summary
  | delete_context
deriving DecidableEq

/-- Which write operations route their body through `_execute_with_retry`.
Read off storage.py: `save_event` (line 156), `create_context` (line 170) and
`create_session` (line 260) call `self._execute_with_retry(...)`, while
`save_context` (lines 172-181), `delete_context` (lines 241-246) and
`end_session_updating_summary` (lines 263-272) open
`sqlite3.connect(self.db_path)` directly with no retry wrapper. -/
def wrappedInRetry : WriteOp → Bool
  | .save_event => true
  | .create_context => true
  | .create_session => true
  | .save_context => false
  | .end_session_updating_summary => false
  | .delete_context => false

/-- A single unwrapped execution: whatever the first attempt does is final,
and any error raises to the caller with no sleeps. -/
def runOnce (f : Nat → DbOutcome) : RetryOutcome :=
  match f 0 with
  | .ok v => .ok v []
  | .locked => .raised .locked []
  | .otherErr => .raised .other []

/-- Dispatch of a storage write: wrapped operations go through
`execute_with_retry`, the rest execute exactly once. -/
def runWrite (op : WriteOp) (f : Nat → DbOutcome) : RetryOutcome :=
  if wrappedInRetry op then execute_with_retry f else runOnce f

/- # Storage engine: singleton construction (`storage.py` lines 17-40) -/

/-- In-memory identity of one `ContextStorage` object: the `db_path` stored by
`__init__` and the `_initialized` marker. -/
structure StorageInstance where
  db_path : String
  initialized : Bool
deriving DecidableEq

/-- The class attribute `ContextStorage._instance` (storage.py line 18). -/
structure StorageClassState where
  _instance : Option StorageInstance
deriving DecidableEq

/-- One evaluation of `ContextStorage(db_path)`: `__new__` (lines 20-24)
returns the existing `_instance` when set, otherwise allocates a fresh object
with `_initialized = False`; `__init__` (lines 26-40) returns immediately when
`_initialized` is already true, and otherwise records `db_path`, builds the
pool, initialises the schema and sets `_initialized = True`.  Returns the
object the caller receives together with the updated class state. -/
def constructStorage (cs : StorageClassState) (db_path : String) :
    StorageInstance × StorageClassState :=
  let inst :=
    match cs._instance with
    | some i => i
    | none => { db_path := "", initialized := false }
  if inst.initialized then (inst, { _instance := some inst })
  else
    let inst' : StorageInstance := { db_path := db_path, initialized := true }
    (inst', { _instance := some inst' })

/- # Claim theorems: C7 and C10 -/

/-- C7 counterexample: `save_context`, `delete_context` and
`end_session_updating_summary` are not wrapped in the retry loop, so the
claim "every storage write operation is wrapped in a bounded retry loop"
fails; concretely, a locked error on `end_session_updating_summary`'s only
attempt raises immediately with no retry and no backoff sleep. -/
theorem c7_counterexample :
    wrappedInRetry WriteOp.save_context = false ∧
    wrappedInRetry WriteOp.delete_context = false ∧
    wrappedInRetry WriteOp.end_session_updating_summary = false ∧
    runWrite WriteOp.end_session_updating_summary (fun _ => DbOutcome.locked)
      = RetryOutcome.raised DbErr.locked [] :=
  ⟨rfl, rfl, rfl, rfl⟩

/-- C7 (amended): only `save_event`, `create_context` and `create_session`
are wrapped in the bounded retry loop; for the wrapped operations the loop
has fixed maximum 3 attempts and increasing backoff, retries only on the
locked condition, and propagates every other error immediately. -/
theorem c7_amended_retry_policy :
    (∀ op : WriteOp, wrappedInRetry op = true ↔
      (op = WriteOp.save_event ∨ op = WriteOp.create_context ∨
        op = WriteOp.create_session)) ∧
    (∀ f : Nat → DbOutcome, f 0 = DbOutcome.otherErr →
      execute_with_retry f = RetryOutcome.raised DbErr.other []) ∧
    (∀ (f : Nat → DbOutcome) (v : Nat), f 0 = DbOutcome.locked →
      f 1 = DbOutcome.ok v → execute_with_retry f = RetryOutcome.ok v [1]) ∧
    execute_with_retry (fun _ => DbOutcome.locked)
      = RetryOutcome.raised DbErr.locked [1, 2] := by
  refine ⟨?_, ?_, ?_, rfl⟩
  · intro op; cases op <;> simp [wrappedInRetry]
  · intro f h
    simp [execute_with_retry, executeWithRetryGo, h]
  · intro f v h0 h1
    simp [execute_with_retry, executeWithRetryGo, h0, h1]

/-- Witness for the amended C7: an error other than "database is locked" on
the first attempt propagates with zero retries. -/
theorem c7_amended_retry_policy_witness :
    execute_with_retry (fun _ => DbOutcome.otherErr)
      = RetryOutcome.raised DbErr.other [] :=
  c7_amended_retry_policy.2.1 (fun _ => DbOutcome.otherErr) rfl

/-- C10: `ContextStorage` is a process-wide singleton — the first
construction installs an initialized instance recording its `db_path`, and
any subsequent construction, with any (possibly different) `db_path`
argument, returns that same instance and leaves the class state unchanged. -/
theorem c10_storage_singleton (p₁ p₂ : String) :
    constructStorage (constructStorage ⟨none⟩ p₁).2 p₂
      = constructStorage ⟨none⟩ p₁ ∧
    (constructStorage ⟨none⟩ p₁).1.db_path = p₁ ∧
    (constructStorage ⟨none⟩ p₁).1.initialized = true :=
  ⟨rfl, rfl, rfl⟩

/- # Sessions table and the session summary shape -/

/-- Modelled from the spec: the `SessionSummary` record shape lives in
`data.py`, which is absent from src/; the spec fixes the fields ("overview,
key_topics list, learning_highlights list, resources_used list, conclusion"),
and the consumption site `end_session_updating_summary` (storage.py line 271)
pins the same five fields. -/
structure SessionSummary where
  overview : String
  key_topics : List String
  learning_highlights : List String
  resources_used : List String
  conclusion : String
deriving DecidableEq

/-- One row of the `sessions` table (storage.py lines 106-120); the id column
is AUTOINCREMENT, end_time and the summary columns are nullable and start
null. -/
structure SessionRow where
  id : Nat
  context_id : Nat
  start_time : Nat
  end_time : Option Nat := none
  overview : Option String := none
  key_topics : Option String := none
  learning_highlights : Option String := none
  resources_used : Option String := none
  conclusion : Option String := none
deriving DecidableEq

/-- Largest id present in the sessions table (0 when empty); AUTOINCREMENT is
modelled as allocating one more than this. -/
def maxSessionId : List SessionRow → Nat
  | [] => 0
  | r :: rs => max r.id (maxSessionId rs)

/-- `ContextStorage.create_session` (storage.py lines 248-260): one atomic
INSERT .. RETURNING id, wrapped in the retry helper; the fresh row is
appended in rowid order and its generated id is returned. -/
def create_session (rows : List SessionRow) (context_id start_time : Nat) :
    Nat × List SessionRow :=
  let nid := maxSessionId rows + 1
  (nid, rows ++ [{ id := nid, context_id := context_id,
                   start_time := start_time }])

/-- Python's `"\n".join(xs)` used for the key_topics and learning_highlights
columns at storage.py line 271. -/
def joinNL (xs : List String) : String := String.intercalate "\n" xs

/-- Python's `"".join(xs)` used for the resources_used column at storage.py
line 271. -/
def joinEmpty (xs : List String) : String := String.join xs

/-- `ContextStorage.end_session_updating_summary` (storage.py lines 263-272):
a single UPDATE setting end_time and the five summary columns together on
every row whose id equals the given session id, committed as one transaction.
`dbFails` injects the database raising during the statement, in which case
the enclosing `with sqlite3.connect(...)` block rolls the transaction back:
the caller sees the exception and the table is unchanged.  A `none`
session id compares NULL in SQL and matches no row. -/
def end_session_updating_summary (rows : List SessionRow)
    (session_id : Option Nat) (end_time : Nat) (s : SessionSummary)
    (dbFails : Bool) : Except Unit (List SessionRow) :=
  if dbFails then .error ()
  else .ok (rows.map fun r =>
    if some r.id = session_id then
      { r with end_time := some end_time,
               overview := some s.overview,
               key_topics := some (joinNL s.key_topics),
               learning_highlights := some (joinNL s.learning_highlights),
               resources_used := some (joinEmpty s.resources_used),
               conclusion := some s.conclusion }
    else r)

/- # Session state machine (`session.py`) -/

/-- In-memory state of a `Session` object (session.py lines 17-35): `flag`
is the `_end_session_event` cancellation flag (set iff `flag = true`);
`end_time` is the in-memory attribute set by `summarize_and_save`. -/
structure SessionState where
  context_id : Nat
  session_id : Option Nat := none
  start_time : Option Nat := none
  end_time : Option Nat := none
  flag : Bool := false
deriving DecidableEq

/-- `Session.is_active` (session.py lines 86-88): true iff the cancellation
flag has not been set. -/
def SessionState.is_active (s : SessionState) : Bool := !s.flag

/-- `Session.start` (session.py lines 59-74): if a session id is already
assigned and the session is still active, log and return the existing id
without touching storage; otherwise record `start_time = now` and insert a
fresh row via `create_session`, storing and returning its id. -/
def SessionState.start (s : SessionState) (rows : List SessionRow)
    (now : Nat) : Nat × SessionState × List SessionRow :=
  match s.session_id, s.is_active with
  | some id, true => (id, s, rows)
  | _, _ =>
    let (nid, rows') := create_session rows s.context_id now
    (nid, { s with session_id := some nid, start_time := some now }, rows')

/-- `Session.generate_session_summary` (session.py lines 100-115): reads the
session's events, prompts the text-generation collaborator and parses the
reply into `SessionSummary`; the whole call is abstracted by its outcome
`gen` — success with the parsed summary, or a raised provider/format error,
which line 115 re-raises unchanged. -/
def generate_session_summary (gen : Except Unit SessionSummary) :
    Except Unit SessionSummary := gen

/-- `Session.summarize_and_save` (session.py lines 90-98): sets the in-memory
`end_time := now` (line 91, before the try), then attempts summary
generation followed by the storage update; any exception raised by either is
caught at line 97 and only logged, so this function itself never raises — it
just returns no summary in that case, leaving the table as it was. -/
def SessionState.summarize_and_save (s : SessionState)
    (rows : List SessionRow) (gen : Except Unit SessionSummary)
    (dbFails : Bool) (now : Nat) :
    SessionState × List SessionRow × Option SessionSummary :=
  let s' := { s with end_time := some now }
  match generate_session_summary gen with
  | .error _ => (s', rows, none)
  | .ok sum =>
    match end_session_updating_summary rows s'.session_id now sum dbFails with
    | .error _ => (s', rows, none)
    | .ok rows' => (s', rows', some sum)

/-- `Session.end` (session.py lines 76-84, `end` being a Lean keyword the
definition is named `endSession`): a no-op when the flag is already set
(line 78); otherwise it sets the cancellation flag (line 83) and awaits
`summarize_and_save`, discarding its result.  The `Except` result type
records that `end` itself propagates no exception: everything below it is
caught inside `summarize_and_save`. -/
def SessionState.endSession (s : SessionState) (rows : List SessionRow)
    (gen : Except Unit SessionSummary) (dbFails : Bool) (now : Nat) :
    Except Unit (SessionState × List SessionRow) :=
  if s.is_active then
    let s' := { s with flag := true }
    let r := s'.summarize_and_save rows gen dbFails now
    .ok (r.1, r.2.1)
  else .ok (s, rows)

/- # Helper lemmas about start and the sessions table -/

/-- Evaluation of `start` on a session with no id yet: a fresh row is
appended and its id returned. -/
theorem start_fresh (s : SessionState) (rows : List SessionRow) (now : Nat)
    (hid : s.session_id = none) :
    s.start rows now = (maxSessionId rows + 1,
      { s with session_id := some (maxSessionId rows + 1),
               start_time := some now },
      rows ++ [{ id := maxSessionId rows + 1, context_id := s.context_id,
                 start_time := now }]) := by
  obtain ⟨cid, sid, st, et, fl⟩ := s
  cases hid
  rfl

/-- Evaluation of `start` on a session that already holds an id and whose
cancellation flag is unset: the stored id is returned and nothing changes. -/
theorem start_already_active (s : SessionState) (rows : List SessionRow)
    (now : Nat) (i : Nat) (hid : s.session_id = some i)
    (hflag : s.flag = false) :
    s.start rows now = (i, s, rows) := by
  obtain ⟨cid, sid, st, et, fl⟩ := s
  cases hid
  cases hflag
  rfl

/-- Number of rows of the sessions table carrying a given id. -/
def countSessionRows (rows : List SessionRow) (i : Nat) : Nat :=
  (rows.filter (fun r => r.id = i)).length

/-- No row carries an id strictly larger than `maxSessionId`. -/
theorem countSessionRows_gt_max (rows : List SessionRow) (k : Nat)
    (h : maxSessionId rows < k) : countSessionRows rows k = 0 := by
  induction rows with
  | nil => rfl
  | cons a t ih =>
    have h1 : a.id ≠ k :=
      Nat.ne_of_lt (lt_of_le_of_lt (le_max_left a.id (maxSessionId t)) h)
    have h2 : maxSessionId t < k :=
      lt_of_le_of_lt (le_max_right a.id (maxSessionId t)) h
    simpa [countSessionRows, List.filter_cons, h1] using ih h2

/-- Appending a row adds exactly one to the count of its id. -/
theorem countSessionRows_append_self (rows : List SessionRow)
    (r : SessionRow) :
    countSessionRows (rows ++ [r]) r.id = countSessionRows rows r.id + 1 := by
  simp [countSessionRows, List.filter_append]

/- # Claim theorems: C6, C4, C5 -/

/-- C6: starting a fresh session and then calling `start()` again without an
intervening `end()` returns the same session id, leaves the session state and
the sessions table unchanged, and exactly one row with that id exists. -/
theorem c6_start_twice_idempotent (s : SessionState) (rows : List SessionRow)
    (n₁ n₂ : Nat) (hid : s.session_id = none) (hflag : s.flag = false) :
    ((s.start rows n₁).2.1.start (s.start rows n₁).2.2 n₂)
      = ((s.start rows n₁).1, (s.start rows n₁).2.1, (s.start rows n₁).2.2) ∧
    countSessionRows (s.start rows n₁).2.2 (s.start rows n₁).1 = 1 := by
  rw [start_fresh s rows n₁ hid]
  constructor
  · exact start_already_active _ _ n₂ (maxSessionId rows + 1) rfl hflag
  · have h0 : countSessionRows rows (maxSessionId rows + 1) = 0 :=
      countSessionRows_gt_max rows (maxSessionId rows + 1) (Nat.lt_succ_self _)
    have h3 := countSessionRows_append_self rows
      { id := maxSessionId rows + 1, context_id := s.context_id,
        start_time := n₁ }
    simpa [h0] using h3

/-- Witness for C6 at a concrete fresh session over an empty table. -/
theorem c6_start_twice_idempotent_witness :
    (((⟨7, none, none, none, false⟩ : SessionState).start [] 1).2.1.start
        ((⟨7, none, none, none, false⟩ : SessionState).start [] 1).2.2 2)
      = ((((⟨7, none, none, none, false⟩ : SessionState).start [] 1)).1,
         (((⟨7, none, none, none, false⟩ : SessionState).start [] 1)).2.1,
         (((⟨7, none, none, none, false⟩ : SessionState).start [] 1)).2.2) ∧
    countSessionRows ((⟨7, none, none, none, false⟩ : SessionState).start [] 1).2.2
        ((⟨7, none, none, none, false⟩ : SessionState).start [] 1).1 = 1 :=
  c6_start_twice_idempotent ⟨7, none, none, none, false⟩ [] 1 2 rfl rfl

/-- A concrete active session bound to session row 1. -/
def sActive : SessionState :=
  { context_id := 1, session_id := some 1, start_time := some 0 }

/-- The stored row for `sActive`: end_time and all summary columns null. -/
def row1 : SessionRow := { id := 1, context_id := 1, start_time := 0 }

/-- C4 counterexample: the session is active and the summarization call
raises, yet `end()` returns normally — the result is a plain `.ok` value, so
no error reaches the caller of `end()`; the claim that the error is surfaced
fails. -/
theorem c4_counterexample :
    SessionState.endSession sActive [row1] (Except.error ()) false 5
      = Except.ok ({ sActive with flag := true, end_time := some 5 },
                   [row1]) := rfl

/-- C4 (amended): when summarization fails, `end()` absorbs the error (it is
logged inside `summarize_and_save` and never re-raised) and returns normally;
the session is still treated as ended — the cancellation flag and the
in-memory end_time are set — while the stored rows are unchanged, so the
persisted end_time and summary fields stay null. -/
theorem c4_amended_end_absorbs_summary_failure (s : SessionState)
    (rows : List SessionRow) (dbFails : Bool) (now : Nat)
    (h : s.is_active = true) :
    s.endSession rows (Except.error ()) dbFails now
      = Except.ok ({ s with flag := true, end_time := some now }, rows) := by
  simp [SessionState.endSession, SessionState.summarize_and_save,
    generate_session_summary, h]

/-- Witness for the amended C4 at a concrete active session. -/
theorem c4_amended_witness :
    SessionState.endSession sActive [row1] (Except.error ()) true 9
      = Except.ok ({ sActive with flag := true, end_time := some 9 },
                   [row1]) :=
  c4_amended_end_absorbs_summary_failure sActive [row1] true 9 rfl

/-- A concrete summary value. -/
def sum1 : SessionSummary :=
  { overview := "o", key_topics := ["k"], learning_highlights := ["l"],
    resources_used := ["r"], conclusion := "c" }

/-- The state of `sActive` after a first `end()` whose persistence failed. -/
def sEnded5 : SessionState := { sActive with flag := true, end_time := some 5 }

/-- C5 counterexample: first `end()` generates a summary but the update
fails — the stored row keeps end_time null (that part of the claim holds) —
yet a subsequent `end()` with summarization and storage both healthy is a
no-op: it neither re-runs summarization nor persists anything, refuting the
claim that a subsequent `end()` retries. -/
theorem c5_counterexample :
    SessionState.endSession sActive [row1] (Except.ok sum1) true 5
      = Except.ok (sEnded5, [row1]) ∧
    row1.end_time = none ∧
    SessionState.endSession sEnded5 [row1] (Except.ok sum1) false 9
      = Except.ok (sEnded5, [row1]) :=
  ⟨rfl, rfl, rfl⟩

/-- C5 (amended): the end-session persistence is a single all-or-nothing
update — on success it sets end_time and all five summary fields together on
the addressed row, and on failure it raises, leaving the table unchanged, so
the stored end_time and summary fields stay null — but a subsequent `end()`
on the same Session object is a no-op, because the cancellation flag is
already set, and does not retry summarization or persistence; a retry has to
invoke `summarize_and_save` directly. -/
theorem c5_amended_single_update_no_end_retry (rows : List SessionRow)
    (sid : Option Nat) (t : Nat) (sum : SessionSummary) (s : SessionState)
    (gen : Except Unit SessionSummary) (db : Bool) (now : Nat)
    (hflag : s.flag = true) :
    end_session_updating_summary rows sid t sum true = Except.error () ∧
    end_session_updating_summary [row1] (some 1) t sum false
      = Except.ok [{ row1 with
                     end_time := some t,
                     overview := some sum.overview,
                     key_topics := some (joinNL sum.key_topics),
                     learning_highlights := some (joinNL sum.learning_highlights),
                     resources_used := some (joinEmpty sum.resources_used),
                     conclusion := some sum.conclusion }] ∧
    s.endSession rows gen db now = Except.ok (s, rows) := by
  refine ⟨rfl, rfl, ?_⟩
  simp [SessionState.endSession, SessionState.is_active, hflag]

/-- Witness for the amended C5 at concrete inputs with the flag already
set. -/
theorem c5_amended_witness :
    end_session_updating_summary [] none 0 sum1 true = Except.error () ∧
    end_session_updating_summary [row1] (some 1) 0 sum1 false
      = Except.ok [{ row1 with
                     end_time := some 0,
                     overview := some sum1.overview,
                     key_topics := some (joinNL sum1.key_topics),
                     learning_highlights := some (joinNL sum1.learning_highlights),
                     resources_used := some (joinEmpty sum1.resources_used),
                     conclusion := some sum1.conclusion }] ∧
    SessionState.endSession sEnded5 [] (Except.error ()) false 3
      = Except.ok (sEnded5, []) :=
  c5_amended_single_update_no_end_retry [] none 0 sum1 sEnded5
    (Except.error ()) false 3 rfl

/- # Capture loop (`context_tracker.py`) -/

/-- Modelled from the spec: the `ScreenCaptureData` record lives in
`data.py`, which is absent from src/.  The spec's Event fields pin its
payload; only the two attributes the loop itself mutates
(persist_context_info lines 140-141) are tracked next to an abstract
payload. -/
structure ScreenCaptureData where
  payload : Nat
  context_id : Option Nat := none
  created_at : Option Nat := none
deriving DecidableEq

/-- Per-tick behaviour of the screen-capture collaborator
(`ScreenCapture.capture`). -/
inductive CaptureOutcome where
  | ok (img : Nat)
  | err
deriving DecidableEq

/-- Per-tick behaviour of the vision-analysis collaborator as seen inside
`analyze_screen`: a response that validates into `ScreenCaptureData`, a
response that fails pydantic validation, or a raised transport/provider
error. -/
inductive AnalyzeOutcome where
  | ok (d : ScreenCaptureData)
  | badFormat
  | transportErr
deriving DecidableEq

/-- What `analyze_screen` can hand back to the loop: a typed record on the
success path, or the literal fallback dict built at context_tracker.py lines
128-132 on the `ValueError` path — a plain dict, not a
`ScreenCaptureData`. -/
inductive AnalysisValue where
  | typed (d : ScreenCaptureData)
  | fallbackDict
deriving DecidableEq

/-- Exceptions that can propagate out of the loop body. -/
inductive PyErr where
  | captureError
  | attributeError
deriving DecidableEq

/-- `ContextTracker.analyze_screen` (context_tracker.py lines 105-135): a
well-formed response is returned as `ScreenCaptureData`; a response failing
validation raises `ValueError` at line 121, which the handler at line 126
catches, returning the raw dict literal of lines 128-132; any other provider
error is caught at line 133 and `None` is returned.  The previous-analysis
argument only feeds the prompt text and cannot change which branch is
taken. -/
def analyze_screen (a : AnalyzeOutcome) : Option AnalysisValue :=
  match a with
  | .ok d => some (.typed d)
  | .badFormat => some .fallbackDict
  | .transportErr => none

/-- `ContextTracker.persist_context_info` (context_tracker.py lines 137-147):
first sets `analysis.context_id` and `analysis.created_at` by attribute
assignment (lines 140-141, outside the `try`), then calls
`self.storage.save_context_info(...)` inside the `try` (line 143).  Two facts
of the source decide the behaviour: attribute assignment on the fallback dict
raises `AttributeError`, which nothing here catches, so it propagates to the
caller; and `ContextStorage` (storage.py) defines no method named
`save_context_info`, so on the typed path the call itself raises
`AttributeError`, which the handler at line 145 catches, returning `None`.
Hence no event row is ever written by this function. -/
def persist_context_info (context_id : Nat) (now : Nat) (v : AnalysisValue) :
    Except PyErr (Option ScreenCaptureData) :=
  match v with
  | .fallbackDict => .error .attributeError
  | .typed d =>
    let _withIds := { d with context_id := some context_id,
                             created_at := some now }
    .ok none

/-- External behaviour during one tick of `run_capture_cycle`: what the
capture collaborator does, what the analysis collaborator does, and the
value `Session.is_active()` would return at that tick.  The last component
is recorded so that cancellation statements can be made; the loop body at
context_tracker.py lines 149-166 never consults it — this revision of
`ContextTracker` holds no session object at all. -/
structure TickInput where
  capture : CaptureOutcome
  analyze : AnalyzeOutcome
  sessionActive : Bool
deriving DecidableEq

/-- How a run of `run_capture_cycle` ends, against a finite prefix of tick
behaviours: an exception propagated out of the loop; the `break` at line 165
(comment: "TODO: remove this after debugging") exited the loop after the
first successfully analysed tick; or the supplied prefix of tick behaviours
was exhausted with the loop still running. -/
inductive LoopExit where
  | finishedBreak
  | crashed (e : PyErr)
  | ranOut
deriving DecidableEq

/-- Observable trace of a run of the loop: how it ended, how many ticks
started (a tick starts when line 153 `capture_screen` is entered), how many
inter-tick sleeps at line 166 happened, and how many event rows were
persisted (none ever are — see `persist_context_info`). -/
structure LoopResult where
  exit : LoopExit
  ticksStarted : Nat
  sleeps : Nat
  eventsPersisted : Nat
deriving DecidableEq

/-- `ContextTracker.run_capture_cycle` (context_tracker.py lines 149-166)
run against a finite prefix of tick behaviours.  Body of `while True:`:
capture a frame — `capture_screen` (lines 49-57) logs and re-raises any
capture error and the loop has no handler around it, so the error propagates
out; analyse — a `None` result logs "skipping capture cycle" and falls
through to the sleep; any other result is handed to `persist_context_info`
(whose `AttributeError` on the fallback dict propagates), its return value
is bound to `previous_analysis`, and the loop `break`s (line 165).  No
branch consults the session flag carried by the `TickInput`. -/
def run_capture_cycle (ticks : List TickInput)
    (prev : Option ScreenCaptureData) (context_id : Nat) (now : Nat)
    (started sleeps : Nat) : LoopResult :=
  match ticks with
  | [] =>
    { exit := .ranOut, ticksStarted := started, sleeps := sleeps,
      eventsPersisted := 0 }
  | t :: rest =>
    match t.capture with
    | .err =>
      { exit := .crashed .captureError, ticksStarted := started + 1,
        sleeps := sleeps, eventsPersisted := 0 }
    | .ok _ =>
      match analyze_screen t.analyze with
      | none => run_capture_cycle rest prev context_id now (started + 1)
          (sleeps + 1)
      | some v =>
        match persist_context_info context_id now v with
        | .error e =>
          { exit := .crashed e, ticksStarted := started + 1,
            sleeps := sleeps, eventsPersisted := 0 }
        | .ok _ =>
          { exit := .finishedBreak, ticksStarted := started + 1,
            sleeps := sleeps, eventsPersisted := 0 }

/-- A whole run of `run_capture_cycle` from its initial state
(`previous_analysis = None`, nothing counted yet). -/
def runCaptureCycle (ticks : List TickInput) (context_id : Nat) (now : Nat) :
    LoopResult :=
  run_capture_cycle ticks none context_id now 0 0

/-- A concrete well-formed analysis record. -/
def dGood : ScreenCaptureData := { payload := 42 }

/- # Claim theorems: C1, C2, C3 -/

/-- C1: failing input — the session's cancellation flag is already set
(is_active would return false) at the only tick, yet the loop still starts
that tick, runs capture and analysis, and exits only through the debug
`break` after the first successful analysis; no is_active check ever runs
and the claimed "no further ticks once the flag is set" does not hold. -/
theorem c1_failing_input_loop_ignores_is_active :
    runCaptureCycle
      [{ capture := .ok 0, analyze := .ok dGood, sessionActive := false }]
      1 0
      = { exit := .finishedBreak, ticksStarted := 1, sleeps := 0,
          eventsPersisted := 0 } := rfl

/-- C2 counterexample: the first tick's capture raises while a healthy
second tick is available; the loop does not log-and-continue to the next
tick after the normal sleep — it terminates at once by propagating the
capture error, with no sleep, before any failure count could reach a
threshold (none exists). -/
theorem c2_counterexample :
    runCaptureCycle
      [{ capture := .err, analyze := .ok dGood, sessionActive := true },
       { capture := .ok 0, analyze := .ok dGood, sessionActive := true }]
      1 0
      = { exit := .crashed .captureError, ticksStarted := 1, sleeps := 0,
          eventsPersisted := 0 } := rfl

/-- C2 (amended): a capture error is fatal for the whole loop, not for the
tick — `capture_screen` logs and re-raises and `run_capture_cycle` has no
handler around it, so whatever ticks follow, the loop terminates on the
first capture failure having started exactly one tick, slept zero times and
persisted no event; no consecutive-failure threshold exists. -/
theorem c2_amended_capture_error_kills_loop (a : AnalyzeOutcome) (b : Bool)
    (rest : List TickInput) (cid now : Nat) :
    runCaptureCycle
      ({ capture := .err, analyze := a, sessionActive := b } :: rest) cid now
      = { exit := .crashed .captureError, ticksStarted := 1, sleeps := 0,
          eventsPersisted := 0 } := rfl

/-- C3: failing input — the analysis response fails validation at the first
tick.  `analyze_screen` hands the loop the fallback dict instead of `None`,
the loop treats it as a success and calls `persist_context_info`, whose
attribute assignment on a plain dict raises `AttributeError`: no event row
is persisted, but the loop crashes and the following healthy tick never
executes, contradicting "the loop continues so that the following tick still
executes". -/
theorem c3_failing_input_malformed_analysis_crashes_loop :
    runCaptureCycle
      [{ capture := .ok 0, analyze := .badFormat, sessionActive := true },
       { capture := .ok 0, analyze := .ok dGood, sessionActive := true }]
      1 0
      = { exit := .crashed .attributeError, ticksStarted := 1, sleeps := 0,
          eventsPersisted := 0 } := rfl

/- # Events and contexts tables (`storage.py`) -/

/-- One row of the `events` table (storage.py lines 123-138); id is
AUTOINCREMENT, session_id is nullable, created_at defaults to the insertion
timestamp but is supplied by the caller of `save_event`. -/
structure EventRow where
  id : Nat
  context_id : Nat
  session_id : Option Nat := none
  note : Option String := none
  main_topic : Option String := none
  created_at : Nat := 0
deriving DecidableEq

/-- Largest id present in the events table (0 when empty). -/
def maxEventId : List EventRow → Nat
  | [] => 0
  | r :: rs => max r.id (maxEventId rs)

/-- `ContextStorage.save_event` (storage.py lines 145-156): one INSERT OR
REPLACE of an event row through the retry helper; no id is supplied, so a
fresh autoincrement id is allocated, nothing is replaced, and the row is
appended in rowid order with exactly the caller's `created_at` value. -/
def save_event (tbl : List EventRow) (context_id : Nat)
    (session_id : Option Nat) (note main_topic : Option String)
    (created_at : Nat) : List EventRow :=
  tbl ++ [{ id := maxEventId tbl + 1, context_id := context_id,
            session_id := session_id, note := note,
            main_topic := main_topic, created_at := created_at }]

/-- `ContextStorage.get_session_events` (storage.py lines 281-286): the query
is SELECT * FROM events WHERE session_id = ? with no ORDER BY clause, so the
session's rows come back in stored (rowid) order. -/
def get_session_events (tbl : List EventRow) (session_id : Nat) :
    List EventRow :=
  tbl.filter (fun r => r.session_id == some session_id)

/-- One row of the `contexts` table (storage.py lines 94-103). -/
structure ContextRow where
  id : Nat
  name : String
  last_active : Nat := 0
deriving DecidableEq

/-- The whole database: the three tables created by `_init_db`
(storage.py lines 88-143). -/
structure Db where
  contexts : List ContextRow
  sessions : List SessionRow
  events : List EventRow
deriving DecidableEq

/-- `ContextStorage.delete_context` (storage.py lines 241-246):
DELETE FROM contexts WHERE id = ?.  The ON DELETE CASCADE and ON DELETE SET
NULL clauses declared in `_init_db` (lines 117 and 135-136) are inert at
runtime: SQLite enforces foreign keys only on connections that issue
PRAGMA foreign_keys = ON, and no connection opened anywhere in storage.py
ever issues it.  So only the matching contexts rows are removed; the
sessions and events tables are untouched. -/
def delete_context (db : Db) (context_id : Nat) : Db :=
  { db with contexts := db.contexts.filter (fun c => !(c.id == context_id)) }

/- # Claim theorems: C8 and C9 -/

/-- An events table built through `save_event` whose two rows for session 1
arrive with created_at 5 and then 3 — out of ascending order. -/
def tblOutOfOrder : List EventRow :=
  save_event (save_event [] 1 (some 1) none none 5) 1 (some 1) none none 3

/-- An events table built through `save_event` whose rows arrive in
ascending created_at order. -/
def tblInOrder : List EventRow :=
  save_event (save_event [] 1 (some 1) none none 3) 1 (some 1) none none 5

/-- C8 counterexample: two events saved through `save_event` for session 1
with created_at 5 then 3; `get_session_events` returns them in stored order
(5 before 3), which is not ascending created_at order — the query performs
no sorting. -/
theorem c8_counterexample :
    (get_session_events tblOutOfOrder 1).map (fun r => r.created_at)
      = [5, 3] ∧
    ¬ (get_session_events tblOutOfOrder 1).Pairwise
        (fun a b => a.created_at ≤ b.created_at) := by
  refine ⟨rfl, ?_⟩
  decide

/-- C8 (amended): `get_session_events` does not sort — it returns the
session's event rows in stored rowid order — so the list handed to
summarization is in ascending created_at order exactly when the rows were
inserted in ascending created_at order (as one serially writing scheduler
produces them), the order being inherited from the table, not imposed by the
query. -/
theorem c8_amended_get_session_events_preserves_order
    (tbl : List EventRow) (sid : Nat)
    (h : tbl.Pairwise (fun a b => a.created_at ≤ b.created_at)) :
    (get_session_events tbl sid).Pairwise
      (fun a b => a.created_at ≤ b.created_at) := by
  have hsub : List.Sublist (get_session_events tbl sid) tbl :=
    List.filter_sublist _
  exact h.sublist hsub

/-- Witness for the amended C8: an in-order table stays in order after the
session filter. -/
theorem c8_amended_witness :
    (get_session_events tblInOrder 1).Pairwise
      (fun a b => a.created_at ≤ b.created_at) :=
  c8_amended_get_session_events_preserves_order tblInOrder 1 (by decide)

/-- A database with one context, one session under it and one event under
both. -/
def dbC9 : Db :=
  { contexts := [{ id := 1, name := "research" }],
    sessions := [{ id := 1, context_id := 1, start_time := 0 }],
    events := [{ id := 1, context_id := 1, session_id := some 1 }] }

/-- C9: failing input — a context with one session and one event.
`delete_context 1` removes only the contexts row: the session row still
references context 1 and the event row still references both context 1 and
session 1, so session rows are not cascade-deleted, a dangling event
context_id remains, and no session reference is cleared to null. -/
theorem c9_failing_input_delete_context_leaves_orphans :
    (delete_context dbC9 1).contexts = [] ∧
    (delete_context dbC9 1).sessions
      = [{ id := 1, context_id := 1, start_time := 0 }] ∧
    (delete_context dbC9 1).events
      = [{ id := 1, context_id := 1, session_id := some 1 }] :=
  ⟨rfl, rfl, rfl⟩
